import Mathlib

/-!
Verification development for the `streamr` streaming-pipeline library
(`streamr/base.py` and `streamr/lists.py`).

The Python code is shallowly embedded: every runtime value of interest is a
constructor of an inductive type, dynamic dispatch is modelled by an explicit
method-resolution-order (MRO) lookup over the exact class of a value, and
Python exceptions are modelled with `Except PyErr`.
-/

namespace Streamr

/-- Python exceptions that the embedded code can raise. -/
inductive PyErr where
  | typeError (msg : String)
  | nameError (msg : String)
  | notImplementedError (msg : String)
  | attributeError (msg : String)
  | stopIteration
  deriving DecidableEq, Repr

/-- A Python "type tag" value, as used for `type_in` / `type_out` ports.
`objId` models the object's identity (`id(x)`), `name` models the content
observed by structural equality (`__eq__`) and by `str`. -/
structure TypeTag where
  objId : Nat
  name : String
  deriving DecidableEq, Repr

/-- Python `==` / `!=` on type tags is structural (content) equality, not
identity: two tags with distinct `objId` but equal `name` compare equal. -/
def tagEq (a b : TypeTag) : Bool :=
  a.name == b.name

/-- A run environment value, as returned by the `get_initial_env` methods in
`streamr/lists.py` (`ListP.get_initial_env` returns `None`,
`ListC.get_initial_env` returns `[]`). -/
inductive EnvV where
  | pynone
  | pylist (xs : List Int)
  deriving DecidableEq, Repr

/-- `ListP.__init__(self, type, list)` stores the type tag, the backing list
and its length (`self.length = len(list)`). -/
structure ListP where
  type : TypeTag
  list : List Int
  length : Nat
  deriving DecidableEq, Repr

/-- `ListP(type, list)`: the constructor sets `length = len(list)`. -/
def ListP.mk' (t : TypeTag) (xs : List Int) : ListP :=
  ⟨t, xs, xs.length⟩

/-- `ListC.__init__(self, type, amount = None)`. -/
structure ListC where
  type : TypeTag
  amount : Option Nat
  deriving DecidableEq, Repr

/-- The exact Python classes of the repository (`type(x)` values). -/
inductive PyClass where
  | streamPart
  | producer
  | consumer
  | pipe
  | streamProcess
  | composedStreamPart
  | fusePipe
  | prependPipe
  | appendPipe
  | listP
  | listC
  deriving DecidableEq, Repr

/-- Instances of the repository's stream-part classes.  `producer`,
`consumer` and `pipe` are direct instances of the abstract classes (whose
abstract methods raise `NotImplementedError` when called); the composed
constructors hold exactly the two children stored by
`ComposedStreamPart.__init__`. -/
inductive Part where
  | producer
  | consumer
  | pipe
  | listP (data : ListP)
  | listC (data : ListC)
  | fusePipe (left right : Part)
  | prependPipe (left right : Part)
  | appendPipe (left right : Part)
  deriving DecidableEq, Repr

/-- `type(x)`: the exact class of a part value. -/
def pyType : Part → PyClass
  | .producer => .producer
  | .consumer => .consumer
  | .pipe => .pipe
  | .listP _ => .listP
  | .listC _ => .listC
  | .fusePipe _ _ => .fusePipe
  | .prependPipe _ _ => .prependPipe
  | .appendPipe _ _ => .appendPipe

/-- Python C3 method resolution order of each class
(`FusePipe(Pipe, ComposedStreamPart)`, `PrependPipe(Consumer,
ComposedStreamPart)`, `AppendPipe(Producer, ComposedStreamPart)`,
`Pipe(Producer, Consumer)`; the terminal `object` is omitted). -/
def mro : PyClass → List PyClass
  | .streamPart => [.streamPart]
  | .producer => [.producer, .streamPart]
  | .consumer => [.consumer, .streamPart]
  | .pipe => [.pipe, .producer, .consumer, .streamPart]
  | .streamProcess => [.streamProcess]
  | .composedStreamPart => [.composedStreamPart]
  | .fusePipe => [.fusePipe, .pipe, .producer, .consumer, .streamPart, .composedStreamPart]
  | .prependPipe => [.prependPipe, .consumer, .streamPart, .composedStreamPart]
  | .appendPipe => [.appendPipe, .producer, .streamPart, .composedStreamPart]
  | .listP => [.listP, .producer, .streamPart]
  | .listC => [.listC, .consumer, .streamPart]

/-- Attribute lookup: the first class in the MRO that defines the method. -/
def resolveMethod (defines : PyClass → Bool) (c : PyClass) : Option PyClass :=
  (mro c).find? defines

/-- Which classes define `get_initial_state` / `shutdown_state`: only the
base class `StreamPart` does (raising), no subclass overrides them. -/
def definesLifecycleState (c : PyClass) : Bool :=
  c == .streamPart

/-- Which classes define `get_initial_env` / `shutdown_env`: only the
concrete list parts in `streamr/lists.py`. -/
def definesLifecycleEnv (c : PyClass) : Bool :=
  c == .listP || c == .listC

/-- `x.get_initial_state()`: resolves to `StreamPart.get_initial_state`,
which raises `NotImplementedError`, for every part class. -/
def get_initial_state (self : Part) : Except PyErr EnvV :=
  match resolveMethod definesLifecycleState (pyType self) with
  | some .streamPart =>
      .error (.notImplementedError "StreamPart::get_initial_state: implement me!")
  | _ => .error (.attributeError "get_initial_state")

/-- `x.shutdown_state(state)`: resolves to `StreamPart.shutdown_state`,
which raises `NotImplementedError`, for every part class. -/
def shutdown_state (self : Part) (_state : EnvV) : Except PyErr Unit :=
  match resolveMethod definesLifecycleState (pyType self) with
  | some .streamPart =>
      .error (.notImplementedError "StreamPart::shutdown_state: implement me!")
  | _ => .error (.attributeError "shutdown_state")

/-- `x.get_initial_env()`: defined only on `ListP` (returns `None`) and
`ListC` (returns `[]`); any other part lacks the attribute. -/
def get_initial_env (self : Part) : Except PyErr EnvV :=
  match resolveMethod definesLifecycleEnv (pyType self) with
  | some .listP => .ok .pynone
  | some .listC => .ok (.pylist [])
  | _ => .error (.attributeError "get_initial_env")

/-- `x.type_out()`: `Producer.type_out` raises `NotImplementedError`;
`ListP.type_out` returns `self.type`; `FusePipe.type_out` and
`AppendPipe.type_out` delegate to `self.right.type_out()`; classes without
the method raise `AttributeError`. -/
def type_out : Part → Except PyErr TypeTag
  | .producer => .error (.notImplementedError "Producer::type_out: implement me!")
  | .pipe => .error (.notImplementedError "Producer::type_out: implement me!")
  | .listP d => .ok d.type
  | .fusePipe _ r => type_out r
  | .appendPipe _ r => type_out r
  | .consumer => .error (.attributeError "type_out")
  | .listC _ => .error (.attributeError "type_out")
  | .prependPipe _ _ => .error (.attributeError "type_out")

/-- `x.type_in()`: `Consumer.type_in` raises `NotImplementedError`;
`ListC.type_in` returns `self.type`; `FusePipe.type_in` and
`PrependPipe.type_in` delegate to `self.left.type_in()`; classes without
the method raise `AttributeError`. -/
def type_in : Part → Except PyErr TypeTag
  | .consumer => .error (.notImplementedError "Consumer::type_in: implement me!")
  | .pipe => .error (.notImplementedError "Consumer::type_in: implement me!")
  | .listC d => .ok d.type
  | .fusePipe l _ => type_in l
  | .prependPipe l _ => type_in l
  | .producer => .error (.attributeError "type_in")
  | .listP _ => .error (.attributeError "type_in")
  | .appendPipe _ _ => .error (.attributeError "type_in")

/-- `str(x)`: `Producer.__str__` renders `(() -> T)`, `Consumer.__str__`
renders `(T -> ())`, `Pipe.__str__` renders `(Tin -> Tout)`; per MRO the
producer rendering applies to `Producer`, `ListP` and `AppendPipe`, the
consumer rendering to `Consumer`, `ListC` and `PrependPipe`, the pipe
rendering to `Pipe` and `FusePipe`.  Formatting calls the type methods,
which may themselves raise. -/
def pyStr (self : Part) : Except PyErr String :=
  match pyType self with
  | .pipe | .fusePipe =>
      match type_in self with
      | .error e => .error e
      | .ok ti =>
          match type_out self with
          | .error e => .error e
          | .ok tOut => .ok ("(" ++ ti.name ++ " -> " ++ tOut.name ++ ")")
  | .consumer | .listC | .prependPipe =>
      match type_in self with
      | .error e => .error e
      | .ok ti => .ok ("(" ++ ti.name ++ " -> ())")
  | _ =>
      match type_out self with
      | .error e => .error e
      | .ok tOut => .ok ("(() -> " ++ tOut.name ++ ")")

/-- The `TypeError("Can't compose %s and %s" % (left, right))` raised both
by `compose_stream_parts`'s fall-through branch and by
`ComposedStreamPart.__init__` on a boundary-type mismatch; formatting the
message calls `str` on both operands, which may itself raise. -/
def composeError (left right : Part) : Except PyErr Part :=
  match pyStr left with
  | .error e => .error e
  | .ok sl =>
      match pyStr right with
      | .error e => .error e
      | .ok sr => .error (.typeError ("Can\x27t compose " ++ sl ++ " and " ++ sr))

/-- `ComposedStreamPart.__init__(self, left, right)`: raises `TypeError`
naming both operands when `left.type_out() != right.type_in()`, otherwise
stores exactly the two children (`self.left = left; self.right = right`,
modelled by applying the variant's constructor `mk`). -/
def ComposedStreamPart.init (mk : Part → Part → Part) (left right : Part) :
    Except PyErr Part :=
  match type_out left with
  | .error e => .error e
  | .ok tOut =>
      match type_in right with
      | .error e => .error e
      | .ok ti =>
          if tagEq tOut ti then .ok (mk left right)
          else composeError left right

/-- `compose_stream_parts(left, right)` from `streamr/base.py`: dispatches
on the exact classes `type(left)` / `type(right)`; the `(Pipe, Pipe)` branch
evaluates the undefined name `FusePipes` (the class is named `FusePipe`),
which raises `NameError`; the `(Producer, Consumer)` branch raises
`NotImplementedError`; any other pairing raises `TypeError`. -/
def compose_stream_parts (left right : Part) : Except PyErr Part :=
  match pyType left, pyType right with
  | .pipe, .pipe =>
      .error (.nameError "name \x27FusePipes\x27 is not defined")
  | .pipe, .consumer =>
      ComposedStreamPart.init Part.prependPipe left right
  | .producer, .pipe =>
      ComposedStreamPart.init Part.appendPipe left right
  | .producer, .consumer =>
      .error (.notImplementedError
        "compose_stream_parts: implement fusion of producer and consumer to stream process.")
  | _, _ =>
      composeError left right

/-- `ListP.produce(self, env)`: a generator that yields each element of
`self.list` in order; the yielded sequence is `self.list` and no field of
`self` is assigned. -/
def ListP.produce (self : ListP) (_env : EnvV) : List Int :=
  self.list

/-- The loop of `ListC.consume(self, await, list)`, with the upstream
modelled as the list of values still available to the pull function
(`await()` raises `StopIteration` exactly when it is empty) and with the
number of calls to `await` counted.  Each iteration pulls, returns the
accumulator `l` on `StopIteration`, otherwise appends the value and returns
early when `self.amount` is not `None` and `len(l) == self.amount`. -/
def consumeGo (amount : Option Nat) : List Int → List Int → Nat → List Int × Nat
  | l, [], pulls => (l, pulls + 1)
  | l, v :: rest, pulls =>
      if amount = some (l ++ [v]).length then (l ++ [v], pulls + 1)
      else consumeGo amount (l ++ [v]) rest (pulls + 1)

/-- `ListC.consume(self, await, list)`: runs the loop with a fresh local
accumulator `l = []`; returns the accumulated list together with the number
of times the pull function was invoked. -/
def ListC.consume (self : ListC) (upstream : List Int) : List Int × Nat :=
  consumeGo self.amount [] upstream 0

/-- State-passing embedding of `ListP.produce`: a Python method call can
mutate fields of `self`, so the embedded method also returns the `ListP`
object as it stands after the call.  The source assigns no field, so the
returned object is `self` unchanged. -/
def ListP.produceM (self : ListP) (env : EnvV) : List Int × ListP :=
  (self.produce env, self)

/-- State-passing embedding of `ListC.consume`: the source assigns no field
of `self` (all mutation is on the run-local `l`), so the returned object is
`self` unchanged. -/
def ListC.consumeM (self : ListC) (upstream : List Int) : (List Int × Nat) × ListC :=
  (self.consume upstream, self)

/-- One run of the pipeline `producer -> consumer`: drive `produce` into
`consume` (the wiring a `StreamProcess` would perform), returning the
consumer's result together with the definition objects as they stand after
the run. -/
def drive (p : ListP) (c : ListC) : (List Int × Nat) × (ListP × ListC) :=
  let pr := p.produceM EnvV.pynone
  let cr := c.consumeM pr.1
  (cr.1, (pr.2, cr.2))

/-- The `StreamProcess` class: holds nothing. -/
structure StreamProcess where
  deriving DecidableEq, Repr

/-- `StreamProcess.run(self)`: the body is `pass`, so the call returns
`None` (modelled as `none`: no consumer result is ever produced). -/
def StreamProcess.run (_self : StreamProcess) : Option (List Int) :=
  none

/-- With limit `K`, while the accumulator is still short of `K` and enough
upstream values remain, the loop pulls once per missing value, stops at
exactly `K` accumulated values, and never pulls past them. -/
lemma consumeGo_limit (K : Nat) (vs : List Int) : ∀ (l : List Int) (pulls : Nat),
    l.length < K → K ≤ l.length + vs.length →
    consumeGo (some K) l vs pulls =
      (l ++ vs.take (K - l.length), pulls + (K - l.length)) := by
  induction vs with
  | nil =>
      intro l pulls h1 h2
      simp only [List.length_nil, Nat.add_zero] at h2
      exact absurd (Nat.lt_of_lt_of_le h1 h2) (Nat.lt_irrefl _)
  | cons v rest ih =>
      intro l pulls h1 h2
      by_cases hK : K = l.length + 1
      · subst hK
        simp [consumeGo, List.take_succ_cons]
      · have h3 : l.length + 1 < K := by omega
        have step : consumeGo (some K) l (v :: rest) pulls =
            consumeGo (some K) (l ++ [v]) rest (pulls + 1) := by
          simp [consumeGo, hK]
        rw [step, ih (l ++ [v]) (pulls + 1) (by simp; omega) (by simp at h2 ⊢; omega)]
        simp only [List.length_append, List.length_singleton]
        have h4 : K - l.length = (K - (l.length + 1)) + 1 := by omega
        rw [Prod.mk.injEq]
        refine ⟨?_, by omega⟩
        rw [h4, List.take_succ_cons, List.append_assoc, List.singleton_append]

/-- C1: the claim says `compose_stream_parts` classifies operands
structurally by capability, so that subclass instances (`ListP`, `ListC`,
composed variants) fall under the matching rule row.  The code instead
dispatches on the exact class: a `ListP`/`ListC` pair matches no row and
raises `TypeError`, and a `FusePipe` (which implements both the Producer
and the Consumer capability) composed with a `Pipe` also falls through to
the fall-through branch instead of the `(Pipe, Pipe)` row. -/
theorem c1_exact_class_dispatch_rejects_subclasses :
    compose_stream_parts (Part.listP ⟨⟨0, "int"⟩, [1, 2, 3], 3⟩)
        (Part.listC ⟨⟨0, "int"⟩, none⟩) =
      .error (.typeError "Can\x27t compose (() -> int) and (int -> ())") ∧
    compose_stream_parts (Part.fusePipe Part.pipe Part.pipe) Part.pipe =
      .error (.notImplementedError "Consumer::type_in: implement me!") :=
  ⟨rfl, rfl⟩

/-- C2: the claim says a compatible `(Pipe, Pipe)` pair composes to a fused
Pipe with delegated port types.  The `(Pipe, Pipe)` branch of
`compose_stream_parts` evaluates the undefined name `FusePipes` (the class
is named `FusePipe`), so it raises `NameError` for every such pair; the
delegation of port types on the composed variant classes themselves does
hold. -/
theorem c2_pipe_pipe_raises_name_error :
    compose_stream_parts Part.pipe Part.pipe =
      .error (.nameError "name \x27FusePipes\x27 is not defined") ∧
    (∀ l r : Part,
      type_in (Part.fusePipe l r) = type_in l ∧
      type_out (Part.fusePipe l r) = type_out r ∧
      type_out (Part.appendPipe l r) = type_out r ∧
      type_in (Part.prependPipe l r) = type_in l) :=
  ⟨rfl, fun _ _ => ⟨rfl, rfl, rfl, rfl⟩⟩

/-- C3: the claim says a `(Producer, Consumer)` pair with equal boundary
types composes to a runnable `StreamProcess` whose `run()` returns the
final accumulated result.  The `(Producer, Consumer)` branch of
`compose_stream_parts` raises `NotImplementedError`, a `ListP`/`ListC`
pair with equal boundary types raises `TypeError` (exact-class dispatch),
and `StreamProcess.run` is a bare `pass` returning `None`. -/
theorem c3_producer_consumer_fusion_unimplemented :
    compose_stream_parts Part.producer Part.consumer =
      .error (.notImplementedError
        "compose_stream_parts: implement fusion of producer and consumer to stream process.") ∧
    compose_stream_parts (Part.listP (ListP.mk' ⟨1, "int"⟩ [1, 2, 3]))
        (Part.listC ⟨⟨1, "int"⟩, none⟩) =
      .error (.typeError "Can\x27t compose (() -> int) and (int -> ())") ∧
    (∀ sp : StreamProcess, sp.run = none) :=
  ⟨rfl, rfl, fun _ => rfl⟩

/-- The fall-through `TypeError` branch always yields an error, whatever
the `str` renderings of the operands do. -/
lemma composeError_errors (l r : Part) : ∃ e, composeError l r = Except.error e := by
  unfold composeError
  rcases hl : pyStr l with e | sl
  · exact ⟨e, rfl⟩
  · rcases hr : pyStr r with e | sr
    · exact ⟨e, rfl⟩
    · exact ⟨_, rfl⟩

/-- Role pairs outside the rule table reach the fall-through branch, which
always raises. -/
lemma compose_fallthrough_errors (l r : Part)
    (h : compose_stream_parts l r = composeError l r) :
    ∃ e, compose_stream_parts l r = Except.error e := by
  rw [h]
  exact composeError_errors l r

/-- C4: the claim says that whenever `(a>>b)>>c` and `a>>(b>>c)` are both
composable, both groupings succeed and behave identically.  In the code no
composition ever succeeds on any pair of parts — every branch of
`compose_stream_parts` raises (`NameError`, `NotImplementedError`,
`TypeError`, or an error from an abstract type method) — so no grouping of
three parts is ever composable at all. -/
theorem c4_compose_never_yields_a_part :
    ∀ a b : Part, ∃ e, compose_stream_parts a b = Except.error e := by
  intro a b
  cases a <;> cases b <;>
    first
      | exact ⟨_, rfl⟩
      | exact compose_fallthrough_errors _ _ rfl

/-- C5: `ComposedStreamPart.__init__` succeeds exactly when
`left.type_out()` equals `right.type_in()` under structural tag equality,
storing exactly the two children, and otherwise raises a `TypeError`
naming both operand descriptions. -/
theorem c5_boundary_check_structural (mk : Part → Part → Part) (l r : Part)
    (tOut tIn : TypeTag) (sl sr : String)
    (hOut : type_out l = .ok tOut) (hIn : type_in r = .ok tIn)
    (hsl : pyStr l = .ok sl) (hsr : pyStr r = .ok sr) :
    (tagEq tOut tIn = true → ComposedStreamPart.init mk l r = .ok (mk l r)) ∧
    (tagEq tOut tIn = false → ComposedStreamPart.init mk l r =
      .error (.typeError ("Can\x27t compose " ++ sl ++ " and " ++ sr))) := by
  constructor <;> intro h <;>
    simp [ComposedStreamPart.init, hOut, hIn, h, composeError, hsl, hsr]

/-- C5 witness: two type tags with distinct identities but equal content
are compatible (structural equality, not identity), and a mismatched pair
fails with the `TypeError` naming both operands. -/
theorem c5_boundary_check_structural_witness :
    ((⟨0, "int"⟩ : TypeTag) ≠ ⟨1, "int"⟩ ∧
      tagEq ⟨0, "int"⟩ ⟨1, "int"⟩ = true ∧
      ComposedStreamPart.init Part.prependPipe (Part.listP ⟨⟨0, "int"⟩, [1], 1⟩)
          (Part.listC ⟨⟨1, "int"⟩, none⟩) =
        .ok (Part.prependPipe (Part.listP ⟨⟨0, "int"⟩, [1], 1⟩)
          (Part.listC ⟨⟨1, "int"⟩, none⟩))) ∧
    ComposedStreamPart.init Part.prependPipe (Part.listP ⟨⟨0, "int"⟩, [1], 1⟩)
        (Part.listC ⟨⟨2, "str"⟩, none⟩) =
      .error (.typeError "Can\x27t compose (() -> int) and (str -> ())") :=
  ⟨⟨by decide, by decide,
      (c5_boundary_check_structural Part.prependPipe
          (Part.listP ⟨⟨0, "int"⟩, [1], 1⟩) (Part.listC ⟨⟨1, "int"⟩, none⟩)
          ⟨0, "int"⟩ ⟨1, "int"⟩ "(() -> int)" "(int -> ())"
          rfl rfl rfl rfl).1 (by decide)⟩,
    (c5_boundary_check_structural Part.prependPipe
        (Part.listP ⟨⟨0, "int"⟩, [1], 1⟩) (Part.listC ⟨⟨2, "str"⟩, none⟩)
        ⟨0, "int"⟩ ⟨2, "str"⟩ "(() -> int)" "(str -> ())"
        rfl rfl rfl rfl).2 (by decide)⟩

/-- C6: the claim says every composed variant delegates environment
creation/release to both children, returning a paired environment.  The
composed variants define no environment operations at all: the inherited
`get_initial_state` / `shutdown_state` raise `NotImplementedError`, and
even the `get_initial_env` name used by the concrete list parts is absent
on them. -/
theorem c6_composed_parts_lack_env_delegation :
    ∀ (l r : Part) (st : EnvV),
      (get_initial_state (Part.fusePipe l r) =
          .error (.notImplementedError "StreamPart::get_initial_state: implement me!") ∧
        shutdown_state (Part.fusePipe l r) st =
          .error (.notImplementedError "StreamPart::shutdown_state: implement me!")) ∧
      (get_initial_state (Part.prependPipe l r) =
          .error (.notImplementedError "StreamPart::get_initial_state: implement me!") ∧
        shutdown_state (Part.prependPipe l r) st =
          .error (.notImplementedError "StreamPart::shutdown_state: implement me!")) ∧
      (get_initial_state (Part.appendPipe l r) =
          .error (.notImplementedError "StreamPart::get_initial_state: implement me!") ∧
        shutdown_state (Part.appendPipe l r) st =
          .error (.notImplementedError "StreamPart::shutdown_state: implement me!")) ∧
      get_initial_env (Part.fusePipe l r) = .error (.attributeError "get_initial_env") :=
  fun _ _ _ => ⟨⟨rfl, rfl⟩, ⟨rfl, rfl⟩, ⟨rfl, rfl⟩, rfl⟩

/-- C7 counterexample: with limit `K = 0` and a nonempty upstream
(`N = 1 > 0 = K`), the claim demands zero pulls and an empty result, but
the length check `len(l) == self.amount` only fires after an append, so
the consumer pulls the value, pulls again, observes exhaustion, and
returns the whole upstream: 2 pulls, result `[5]`. -/
theorem c7_zero_limit_counterexample :
    ListC.consume ⟨⟨0, "int"⟩, some 0⟩ [5] = ([5], 2) ∧
    ListC.consume ⟨⟨0, "int"⟩, some 0⟩ [5] ≠ (([] : List Int), 0) :=
  ⟨rfl, by decide⟩

/-- C7 (amended to limits `K ≥ 1`): a `ListC` with limit `K` driven by an
upstream of `N > K` values invokes the pull function exactly `K` times —
never `K + 1` — and returns the list of the first `K` values pulled. -/
theorem c7_limit_K_pulls (t : TypeTag) (K : Nat) (vs : List Int)
    (h1 : 1 ≤ K) (h2 : K < vs.length) :
    ListC.consume ⟨t, some K⟩ vs = (vs.take K, K) := by
  have h := consumeGo_limit K vs [] 0 (by simpa using h1) (by simp; omega)
  simpa [ListC.consume] using h

/-- C7 witness: limit 2 against 3 upstream values gives exactly 2 pulls
and the first 2 values. -/
theorem c7_limit_K_pulls_witness :
    1 ≤ 2 ∧ 2 < ([1, 2, 3] : List Int).length ∧
    ListC.consume ⟨⟨0, "int"⟩, some 2⟩ [1, 2, 3] = ([1, 2], 2) :=
  ⟨by decide, by decide,
    c7_limit_K_pulls ⟨0, "int"⟩ 2 [1, 2, 3] (by decide) (by decide)⟩

/-- C8: an unlimited `ListC` (`amount = None`) driven by the output of a
`ListP` over the empty sequence observes exhaustion on the very first pull
and returns its initial accumulator `[]` unmodified. -/
theorem c8_empty_producer_yields_initial_accumulator :
    ∀ t1 t2 : TypeTag,
      ListC.consume ⟨t1, none⟩ (ListP.produce (ListP.mk' t2 []) EnvV.pynone) =
        (([] : List Int), 1) :=
  fun _ _ => rfl

/-- C9: `ListP.produce` yields the same sequence on every call and leaves
the `ListP` definition object unchanged, `ListC.consume` leaves the `ListC`
definition object unchanged, and driving the same pipeline definition twice
sequentially yields identical results from identical definitions. -/
theorem c9_rerun_isolation :
    ∀ (p : ListP) (c : ListC) (e1 e2 : EnvV),
      (p.produceM e1).1 = (p.produceM e2).1 ∧
      (p.produceM e1).2 = p ∧
      (c.consumeM (p.produce e1)).2 = c ∧
      (drive p c).2 = (p, c) ∧
      (drive (drive p c).2.1 (drive p c).2.2).1 = (drive p c).1 :=
  fun _ _ _ _ => ⟨rfl, rfl, rfl, rfl, rfl⟩

/-- C10: on every part of the repository, the base-class lifecycle
operations `get_initial_state` / `shutdown_state` raise
`NotImplementedError` (the concrete list parts define their lifecycle
under the different names `get_initial_env` / `shutdown_env`, and no
composed variant overrides the base pair). -/
theorem c10_lifecycle_interface_unsatisfied :
    (∀ (p : Part) (st : EnvV),
        get_initial_state p =
          .error (.notImplementedError "StreamPart::get_initial_state: implement me!") ∧
        shutdown_state p st =
          .error (.notImplementedError "StreamPart::shutdown_state: implement me!")) ∧
    (∀ d : ListP, get_initial_env (Part.listP d) = .ok .pynone) ∧
    (∀ d : ListC, get_initial_env (Part.listC d) = .ok (.pylist [])) := by
  refine ⟨fun p st => ?_, fun _ => rfl, fun _ => rfl⟩
  cases p <;> exact ⟨rfl, rfl⟩

end Streamr
